import Mathlib

/-!
Verification of the traversal-and-matching engine of the ansible-lint rules
`VariableNamingRule` and `UseCommandInsteadOfShellRule`.

The Python data handled by the rules (parsed YAML mappings whose keys may be
strings or other scalars, with values that may be nested mappings) is embedded
as the mutual inductive family `PyVal` / `PyEntries`.  Python exceptions raised
by the rule code (AttributeError, KeyError, TypeError) are embedded with
`Except PyErr`.
-/

mutual

/-- A Python value as it occurs in a parsed YAML document handled by the
rules: a string, an integer, a boolean, `None`, or a nested mapping. -/
inductive PyVal : Type where
  | str (s : String)
  | int (n : Int)
  | bool (b : Bool)
  | none
  | dict (entries : PyEntries)
deriving Repr, DecidableEq

/-- The entries of a Python mapping, in insertion order.  Keys are arbitrary
`PyVal`s: YAML happily produces non-string keys (e.g. `true:` parses to the
boolean `True`). -/
inductive PyEntries : Type where
  | nil
  | cons (key : PyVal) (val : PyVal) (rest : PyEntries)
deriving Repr, DecidableEq

end

/-- The Python exceptions the embedded rule code can raise. -/
inductive PyErr : Type where
  | attributeError
  | keyError
  | typeError
deriving Repr, DecidableEq

/-- `s.startswith(pre)` on Python strings, computed over the character list. -/
def strStartsWith (s pre : String) : Bool :=
  decide (s.toList.take pre.toList.length = pre.toList)

/-- `s.endswith(suf)` on Python strings, computed over the character list. -/
def strEndsWith (s suf : String) : Bool :=
  decide (s.toList.reverse.take suf.toList.length = suf.toList.reverse)

/-- `is_property` from VariableNamingRule.py: `k.startswith('__') and
k.endswith('__')`.  On a non-string key the attribute access raises
`AttributeError` (e.g. `bool` has no attribute `startswith`). -/
def is_property : PyVal → Except PyErr Bool
  | .str s => .ok (strStartsWith s "__" && strEndsWith s "__")
  | _ => .error .attributeError

/-- Python 3's `keyword.kwlist`: the reserved keywords tested by
`keyword.iskeyword`. -/
def pyKeywords : List String :=
  ["False", "None", "True", "and", "as", "assert", "async", "await", "break",
   "class", "continue", "def", "del", "elif", "else", "except", "finally",
   "for", "from", "global", "if", "import", "in", "is", "lambda", "nonlocal",
   "not", "or", "pass", "raise", "return", "try", "while", "with", "yield"]

/-- `ident.encode('ascii')` succeeds exactly when every character is a 7-bit
code point. -/
def isAsciiStr (s : String) : Bool :=
  s.toList.all (fun c => c.toNat < 128)

/-- `str.isidentifier()` restricted to ASCII strings (the only strings it is
applied to here, since the ASCII check comes first): non-empty, first
character a letter or underscore, remaining characters letters, digits or
underscores. -/
def isAsciiIdentifier (s : String) : Bool :=
  match s.toList with
  | [] => false
  | c :: cs => (c.isAlpha || c = '_') && cs.all (fun c2 => c2.isAlphanum || c2 = '_')

/-- `is_invalid_variable_name` from VariableNamingRule.py.  Despite its name
it returns `true` exactly for VALID identifiers: non-strings, non-ASCII
strings, non-identifiers and reserved keywords all yield `false`. -/
def is_invalid_variable_name : PyVal → Bool
  | .str s =>
      if !isAsciiStr s then false
      else if !isAsciiIdentifier s then false
      else if pyKeywords.contains s then false
      else true
  | _ => false

mutual

/-- `VariableNamingRule.recursive_items`, consumed eagerly into a list.
For each (key, value) entry in order: looking at the key calls `is_property`
(which raises on non-string keys); internal `__...__` keys are skipped
entirely; otherwise the pair is emitted and, when the value is itself a
mapping, its own pairs follow immediately (the source's two branches both
emit the pair first; walking a non-mapping value contributes nothing). -/
def recursive_items : PyEntries → Except PyErr (List (PyVal × PyVal))
  | .nil => .ok []
  | .cons k v rest =>
    match is_property k with
    | .error e => .error e
    | .ok true => recursive_items rest
    | .ok false =>
      match value_items v with
      | .error e => .error e
      | .ok subItems =>
        match recursive_items rest with
        | .error e => .error e
        | .ok restItems => .ok ((k, v) :: (subItems ++ restItems))

/-- The pairs contributed by recursing into a value: the source recurses
exactly when `isinstance(value, dict)`. -/
def value_items : PyVal → Except PyErr (List (PyVal × PyVal))
  | .dict sub => recursive_items sub
  | _ => .ok []

end

/-- Python `dict.get(k, default)` without the default: the first (unique in a
real dict) entry whose key equals `k`. -/
def pyGet (d : PyEntries) (k : PyVal) : Option PyVal :=
  match d with
  | .nil => Option.none
  | .cons k2 v rest => if k2 = k then some v else pyGet rest k

/-- Python `d[k]`: like `pyGet` but raising `KeyError` when absent. -/
def pyIndex (d : PyEntries) (k : PyVal) : Except PyErr PyVal :=
  match pyGet d k with
  | some v => .ok v
  | Option.none => .error .keyError

/-- Python truthiness of the values a `register:` entry can hold. -/
def pyTruthy : PyVal → Bool
  | .str s => !(s.isEmpty)
  | .int n => n != 0
  | .bool b => b
  | .none => false
  | .dict .nil => false
  | .dict (.cons _ _ _) => true

/-- One reported rule violation: the message passed to `create_matcherror`
and, when the call site supplies one, the `linenumber` argument. -/
structure Finding : Type where
  message : String
  linenumber : Option PyVal := Option.none
deriving Repr, DecidableEq

namespace VariableNamingRule

/-- The message built by `matchplay` for an offending key `s`. -/
def playMsg (s : String) : String :=
  "Play defines variable '" ++ s ++
    "' within 'vars' section that violates variable naming standards"

/-- The message built by `matchyaml` for an offending key `s`. -/
def fileMsg (s : String) : String :=
  "File defines variable '" ++ s ++ "' that violates variable naming standards"

/-- The `matchtask` message for the task `vars` section. -/
def taskVarsMsg : String :=
  "Task defines variables within 'vars' section that violates variable naming standards"

/-- The `matchtask` message for `set_fact` arguments. -/
def taskSetFactMsg : String :=
  "Task uses 'set_fact' to define variables that violates variable naming standards"

/-- The `matchtask` message for an offending `register` target. -/
def taskRegisterMsg : String :=
  "Task registers a variable that violates variable naming standards"

/-- The body of `matchplay`'s `for` loop over the walked pairs: each pair
whose key satisfies `is_invalid_variable_name` appends one finding whose line
number is read with `our_vars['__line__']` (a `KeyError` when absent).  Keys
for which the validator returns `true` are necessarily strings. -/
def playLoop (ourVars : PyEntries) : List (PyVal × PyVal) → Except PyErr (List Finding)
  | [] => .ok []
  | (k, _) :: rest =>
    if is_invalid_variable_name k then
      match k with
      | .str s =>
        match pyIndex ourVars (.str "__line__") with
        | .error e => .error e
        | .ok line =>
          match playLoop ourVars rest with
          | .error e => .error e
          | .ok tail => .ok ({ message := playMsg s, linenumber := some line } :: tail)
      | _ => .error .typeError
    else playLoop ourVars rest

/-- `VariableNamingRule.matchplay`: read `data.get('vars', {})`, walk it with
`recursive_items`, and report each key the validator flags, at the `vars`
block's own `__line__` marker.  A non-mapping `vars` value would make
`.items()` raise `AttributeError`. -/
def matchplay (data : PyEntries) : Except PyErr (List Finding) :=
  match (pyGet data (.str "vars")).getD (.dict .nil) with
  | .dict ve =>
    match recursive_items ve with
    | .error e => .error e
    | .ok pairs => playLoop ve pairs
  | _ => .error .attributeError

/-- A task as `VariableNamingRule.matchtask` reads it: the optional `vars`
mapping, the `action` mapping (required of every task by the data model), and
`task.get('register', None)` (embedded as `PyVal.none` when absent). -/
structure VnTask : Type where
  vars : Option PyVal := Option.none
  action : PyEntries := .nil
  register : PyVal := PyVal.none
deriving Repr, DecidableEq

/-- `VariableNamingRule.matchtask`: check the task's `vars` block, then (for
the `set_fact` module) the action's argument keys, then the `register`
target, returning at the first check that flags a key.  The result is `none`
for Python `False` and `some msg` for a single message string. -/
def matchtask (task : VnTask) : Except PyErr (Option String) :=
  match (task.vars).getD (.dict .nil) with
  | .dict ve =>
    match recursive_items ve with
    | .error e => .error e
    | .ok pairs =>
      if pairs.any (fun p => is_invalid_variable_name p.1) then
        .ok (some taskVarsMsg)
      else
        match pyIndex task.action (.str "__ansible_module__") with
        | .error e => .error e
        | .ok ansibleModule =>
          match
            (if ansibleModule = PyVal.str "set_fact" then
              match recursive_items task.action with
              | .error e => Except.error e
              | .ok apairs =>
                if apairs.any (fun p => is_invalid_variable_name p.1) then
                  Except.ok (some taskSetFactMsg)
                else Except.ok Option.none
            else Except.ok Option.none) with
          | .error e => .error e
          | .ok (some m) => .ok (some m)
          | .ok Option.none =>
            if pyTruthy task.register && is_invalid_variable_name task.register then
              .ok (some taskRegisterMsg)
            else .ok Option.none
  | _ => .error .attributeError

/-- The body of `matchyaml`'s `for` loop over the walked pairs of a parsed
vars file: one finding per key the validator flags, with no line number (the
source's `linenumber=` argument is commented out). -/
def yamlLoop : List (PyVal × PyVal) → List Finding
  | [] => []
  | (k, _) :: rest =>
    match k with
    | .str s =>
      if is_invalid_variable_name (.str s) then
        { message := fileMsg s } :: yamlLoop rest
      else yamlLoop rest
    | _ => yamlLoop rest

/-- `VariableNamingRule.matchyaml`.  The call `parse_yaml_from_file` and the
base-class `super().matchyaml(file)` live outside the two source files, so
the parsed mapping of a `"vars"`-kind file and the default findings of the
base class are taken as parameters. -/
def matchyaml (kind : String) (metaData : PyEntries) (superResults : List Finding) :
    Except PyErr (List Finding) :=
  if kind = "vars" then
    match recursive_items metaData with
    | .error e => .error e
    | .ok pairs => .ok (yamlLoop pairs)
  else .ok superResults

end VariableNamingRule

/-! ### The shell rule -/

/-- The left brace character (code point 123). -/
def lbrace : Char := Char.ofNat 123

/-- The right brace character (code point 125). -/
def rbrace : Char := Char.ofNat 125

/-- The backquote character (code point 96). -/
def backquote : Char := Char.ofNat 96

/-- Drop characters up to and including the first double-right-brace that
closes a template placeholder. -/
def dropClose : List Char → List Char
  | [] => []
  | c :: rest =>
    match rest with
    | c2 :: rest2 => if c = rbrace && c2 = rbrace then rest2 else dropClose rest
    | [] => []

/-- Modelled from the spec: the Template Normalizer's scan, with explicit fuel
(the input length suffices).  Every `\x7b\x7b ... \x7d\x7d` placeholder is
replaced by a fixed letters-only token, leaving literal text untouched. -/
def unjinjaAux : Nat → List Char → List Char
  | 0, _ => []
  | _ + 1, [] => []
  | fuel + 1, c :: rest =>
    match rest with
    | c2 :: rest2 =>
      if c = lbrace && c2 = lbrace then
        "JINJAEXPRESSION".toList ++ unjinjaAux fuel (dropClose rest2)
      else c :: unjinjaAux fuel rest
    | [] => [c]

/-- Modelled from the spec: `AnsibleLintRule.unjinja` (defined in the
base-class module, outside the two source files).  Per the spec it replaces
every double-brace template placeholder with non-template text so literal
character scans do not false-trigger on template contents. -/
def unjinja (text : String) : String :=
  String.mk (unjinjaAux text.toList.length text.toList)

/-- Python `' '.join(args)`. -/
def joinSpace : List String → String
  | [] => ""
  | [s] => s
  | s :: rest => s ++ " " ++ joinSpace rest

namespace UseCommandInsteadOfShellRule

/-- The fixed shell metacharacter set of the rule, in source order:
`&|<>;$\n*[]\x7b\x7d?` and the backquote. -/
def shellMetachars : List Char :=
  ['&', '|', '<', '>', ';', '$', '\n', '*', '[', ']', lbrace, rbrace, '?', backquote]

/-- A task as `UseCommandInsteadOfShellRule.matchtask` reads it:
`action['__ansible_module__']` (required of every task by the data model),
the optional `cmd` field, and `action.get('__ansible_arguments__', [])`. -/
structure ShellTask : Type where
  ansibleModule : String
  cmd : Option String := Option.none
  ansibleArguments : List String := []
deriving Repr, DecidableEq

/-- `UseCommandInsteadOfShellRule.matchtask`: only `shell`-module tasks can
match; the command text is the explicit `cmd` field when present, otherwise
the arguments joined with single spaces; after template normalization the
task matches exactly when no shell metacharacter occurs in the text. -/
def matchtask (task : ShellTask) : Bool :=
  if task.ansibleModule = "shell" then
    let unjinjadCmd :=
      match task.cmd with
      | some c => unjinja c
      | Option.none => unjinja (joinSpace task.ansibleArguments)
    !(shellMetachars.any (fun ch => unjinjadCmd.toList.contains ch))
  else false

end UseCommandInsteadOfShellRule

/-! ### Concrete documents used as witnesses and counterexamples -/

/-- The string carried by a `PyVal.str`; dummy on other values (only applied
to keys the validator has certified to be strings). -/
def pyStrVal : PyVal → String
  | .str s => s
  | _ => ""

/-- A parsed `"vars"`-kind file `\x7bvalid_name: 1, 2bad: 2\x7d`. -/
def exVarsFile : PyEntries :=
  .cons (.str "valid_name") (.int 1) (.cons (.str "2bad") (.int 2) .nil)

/-- A parsed `"vars"`-kind file `\x7bgood_wit: 1\x7d`. -/
def exVarsFileW : PyEntries :=
  .cons (.str "good_wit") (.int 1) .nil

/-- The `FAIL_PLAY` fixture of VariableNamingRule.py as the parser
collaborator delivers it (modelled from the spec's data model): the play
mapping with its `__line__` markers, the YAML key `true` parsed to the
boolean `True`. -/
def failPlayData : PyEntries :=
  .cons (.str "hosts") (.str "localhost")
    (.cons (.str "vars")
      (.dict (.cons (.bool true) (.bool false) (.cons (.str "__line__") (.int 3) .nil)))
      (.cons (.str "__line__") (.int 2) .nil))

/-- The innermost mapping `\x7bc: 1\x7d` of the walker example. -/
def exWalkBB : PyEntries := .cons (.str "c") (.int 1) .nil

/-- The mapping `\x7b__line__: 4, b: \x7bc: 1\x7d\x7d` of the walker example. -/
def exWalkInner : PyEntries :=
  .cons (.str "__line__") (.int 4) (.cons (.str "b") (.dict exWalkBB) .nil)

/-- The walker example `\x7ba: \x7b__line__: 4, b: \x7bc: 1\x7d\x7d\x7d`. -/
def exWalk : PyEntries := .cons (.str "a") (.dict exWalkInner) .nil

/-- The pairs the walker yields on `exWalk`. -/
def exWalkItems : List (PyVal × PyVal) :=
  [(.str "a", .dict exWalkInner), (.str "b", .dict exWalkBB), (.str "c", .int 1)]

/-- The `vars` mapping `\x7bgood_var: 1, __line__: 5\x7d` of a play. -/
def exPlayVars : PyEntries :=
  .cons (.str "good_var") (.int 1) (.cons (.str "__line__") (.int 5) .nil)

/-- A play `\x7bvars: \x7bgood_var: 1, __line__: 5\x7d, __line__: 2\x7d`. -/
def exPlay : PyEntries :=
  .cons (.str "vars") (.dict exPlayVars) (.cons (.str "__line__") (.int 2) .nil)

/-- A task whose `vars` block and `register` target are both flagged by the
validator: the `vars` check must win. -/
def exVnTask : VariableNamingRule.VnTask :=
  { vars := some (.dict (.cons (.str "good_name") (.int 1)
      (.cons (.str "__line__") (.int 7) .nil)))
    action := .cons (.str "__ansible_module__") (.str "command") .nil
    register := .str "also_good" }

/-- A shell task with `cmd: "echo hello"`. -/
def exShellTaskEcho : UseCommandInsteadOfShellRule.ShellTask :=
  { ansibleModule := "shell", cmd := some "echo hello" }

/-- The property the spec states for a valid identifier: ASCII-only,
host-language identifier syntax (letters/digits/underscore, not starting
with a digit, non-empty), and not a reserved keyword. -/
def SpecValidIdent (s : String) : Prop :=
  (∀ c ∈ s.toList, c.toNat < 128) ∧
  (∃ c cs, s.toList = c :: cs ∧ (c.isAlpha = true ∨ c = '_') ∧
    ∀ c2 ∈ cs, (c2.isAlphanum = true ∨ c2 = '_')) ∧
  s ∉ pyKeywords

/-! ## Helper lemmas -/

/-- `is_property` succeeds exactly on string keys and reports the
double-underscore test on them. -/
theorem is_property_ok (k : PyVal) (b : Bool) (h : is_property k = .ok b) :
    ∃ s, k = PyVal.str s ∧ (strStartsWith s "__" && strEndsWith s "__") = b := by
  cases k with
  | str s => exact ⟨s, rfl, by simpa [is_property] using h⟩
  | int n => simp [is_property] at h
  | bool b2 => simp [is_property] at h
  | none => simp [is_property] at h
  | dict e => simp [is_property] at h

mutual

/-- Every key of a successfully walked mapping is a string that fails the
double-underscore property test. -/
theorem recursive_items_keys_ok : ∀ (d : PyEntries) (l : List (PyVal × PyVal)),
    recursive_items d = .ok l → ∀ p ∈ l, is_property p.1 = .ok false
  | .nil, l, h => by
      unfold recursive_items at h
      injection h with h
      subst h
      intro p hp
      cases hp
  | .cons k v rest, l, h => by
      unfold recursive_items at h
      split at h
      · cases h
      · rename_i hk
        intro p hp
        exact recursive_items_keys_ok rest l h p hp
      · rename_i hk
        split at h
        · cases h
        · rename_i sub hsub
          split at h
          · cases h
          · rename_i restItems hrest
            injection h with h
            subst h
            intro p hp
            rcases List.mem_cons.mp hp with rfl | hp2
            · exact hk
            · rcases List.mem_append.mp hp2 with hs | hr
              · exact value_items_keys_ok v sub hsub p hs
              · exact recursive_items_keys_ok rest restItems hrest p hr

/-- Every key produced by walking into a value is a string that fails the
double-underscore property test. -/
theorem value_items_keys_ok : ∀ (v : PyVal) (l : List (PyVal × PyVal)),
    value_items v = .ok l → ∀ p ∈ l, is_property p.1 = .ok false
  | .dict sub, l, h => by
      unfold value_items at h
      exact recursive_items_keys_ok sub l h
  | .str s, l, h => by
      unfold value_items at h
      injection h with h
      subst h
      intro p hp
      cases hp
  | .int n, l, h => by
      unfold value_items at h
      injection h with h
      subst h
      intro p hp
      cases hp
  | .bool b, l, h => by
      unfold value_items at h
      injection h with h
      subst h
      intro p hp
      cases hp
  | .none, l, h => by
      unfold value_items at h
      injection h with h
      subst h
      intro p hp
      cases hp

end

namespace VariableNamingRule

/-- The `matchyaml` loop emits, in walk order, exactly one finding per pair
whose key the validator flags. -/
theorem yamlLoop_eq : ∀ (pairs : List (PyVal × PyVal)),
    yamlLoop pairs =
      (pairs.filter (fun p => is_invalid_variable_name p.1)).map
        (fun p => { message := fileMsg (pyStrVal p.1) })
  | [] => rfl
  | (k, v) :: rest => by
      cases k with
      | str s =>
          by_cases hinv : is_invalid_variable_name (.str s) = true
          · simp [yamlLoop, hinv, yamlLoop_eq rest, pyStrVal]
          · simp [yamlLoop, Bool.of_not_eq_true hinv, yamlLoop_eq rest]
      | int n => simp [yamlLoop, is_invalid_variable_name, yamlLoop_eq rest]
      | bool b => simp [yamlLoop, is_invalid_variable_name, yamlLoop_eq rest]
      | none => simp [yamlLoop, is_invalid_variable_name, yamlLoop_eq rest]
      | dict e => simp [yamlLoop, is_invalid_variable_name, yamlLoop_eq rest]

/-- When the walked `vars` mapping carries its `__line__` marker, the
`matchplay` loop never raises and stamps every finding with that line. -/
theorem playLoop_eq (ve : PyEntries) (line : PyVal)
    (hline : pyGet ve (.str "__line__") = some line) :
    ∀ (pairs : List (PyVal × PyVal)),
      playLoop ve pairs =
        .ok ((pairs.filter (fun p => is_invalid_variable_name p.1)).map
          (fun p => { message := playMsg (pyStrVal p.1), linenumber := some line }))
  | [] => rfl
  | (k, v) :: rest => by
      cases k with
      | str s =>
          by_cases hinv : is_invalid_variable_name (.str s) = true
          · simp [playLoop, hinv, pyIndex, hline, playLoop_eq ve line hline rest, pyStrVal]
          · simp [playLoop, Bool.of_not_eq_true hinv, playLoop_eq ve line hline rest]
      | int n => simp [playLoop, is_invalid_variable_name, playLoop_eq ve line hline rest]
      | bool b => simp [playLoop, is_invalid_variable_name, playLoop_eq ve line hline rest]
      | none => simp [playLoop, is_invalid_variable_name, playLoop_eq ve line hline rest]
      | dict e => simp [playLoop, is_invalid_variable_name, playLoop_eq ve line hline rest]

end VariableNamingRule

/-- The ASCII check holds exactly when every character is a 7-bit code
point. -/
theorem isAsciiStr_iff (s : String) :
    isAsciiStr s = true ↔ ∀ c ∈ s.toList, c.toNat < 128 := by
  simp [isAsciiStr, List.all_eq_true]

/-- The identifier check holds exactly when the string is non-empty, starts
with a letter or underscore, and continues with letters, digits or
underscores. -/
theorem isAsciiIdentifier_iff (s : String) :
    isAsciiIdentifier s = true ↔
      ∃ c cs, s.toList = c :: cs ∧ (c.isAlpha = true ∨ c = '_') ∧
        ∀ c2 ∈ cs, (c2.isAlphanum = true ∨ c2 = '_') := by
  unfold isAsciiIdentifier
  cases h : s.toList with
  | nil => simp [h]
  | cons c cs =>
      simp only [h, List.all_eq_true, Bool.and_eq_true, Bool.or_eq_true,
        decide_eq_true_eq]
      constructor
      · rintro ⟨h1, h2⟩
        exact ⟨c, cs, rfl, h1, h2⟩
      · rintro ⟨c1, cs1, heq, h1, h2⟩
        cases heq
        exact ⟨h1, h2⟩

/-- Keyword lookup agrees with list membership. -/
theorem pyKeywords_contains_iff (s : String) :
    pyKeywords.contains s = true ↔ s ∈ pyKeywords := by
  simp [List.contains, List.elem_iff]

/-- The validator as a Boolean conjunction of its three string tests. -/
theorem is_invalid_str_eq (s : String) :
    is_invalid_variable_name (.str s) =
      (isAsciiStr s && isAsciiIdentifier s && !(pyKeywords.contains s)) := by
  unfold is_invalid_variable_name
  by_cases h1 : isAsciiStr s <;> by_cases h2 : isAsciiIdentifier s <;>
    by_cases h3 : pyKeywords.contains s <;> simp [h1, h2, h3]

/-- C2: `is_invalid_variable_name` is a total Boolean function that returns
`true` exactly when its input is a string that is ASCII-only, satisfies the
identifier syntax (non-empty, letters/digits/underscore, not starting with a
digit), and is not a reserved keyword; in particular it is `false` on the
non-string `123`, on `"2bad"`, on `"class"` and on `"héllo"`, and `true` on
`"valid_name"`.  (Totality and freedom from exceptions are expressed by the
function's type `PyVal → Bool`.) -/
theorem c2_validator_characterization :
    (∀ v : PyVal, is_invalid_variable_name v = true ↔
      ∃ s, v = PyVal.str s ∧ SpecValidIdent s)
  ∧ is_invalid_variable_name (.str "valid_name") = true
  ∧ is_invalid_variable_name (.str "2bad") = false
  ∧ is_invalid_variable_name (.str "class") = false
  ∧ is_invalid_variable_name (.str "héllo") = false
  ∧ is_invalid_variable_name (.int 123) = false := by
  refine ⟨?_, by decide, by decide, by decide, by decide, by decide⟩
  intro v
  cases v with
  | str s =>
      simp only [PyVal.str.injEq, exists_eq_left']
      rw [is_invalid_str_eq]
      simp only [Bool.and_eq_true, Bool.not_eq_true']
      rw [isAsciiStr_iff, isAsciiIdentifier_iff]
      unfold SpecValidIdent
      constructor
      · rintro ⟨⟨ha, hi⟩, hk⟩
        refine ⟨ha, hi, fun hmem => ?_⟩
        have hc : pyKeywords.contains s = true := (pyKeywords_contains_iff s).mpr hmem
        rw [hc] at hk
        cases hk
      · rintro ⟨ha, hi, hk⟩
        refine ⟨⟨ha, hi⟩, ?_⟩
        cases hc : pyKeywords.contains s
        · rfl
        · exact absurd ((pyKeywords_contains_iff s).mp hc) hk
  | int n => simp [is_invalid_variable_name]
  | bool b => simp [is_invalid_variable_name]
  | none => simp [is_invalid_variable_name]
  | dict e => simp [is_invalid_variable_name]

/-- C6: a successful recursive key walk never yields a pair whose key is an
internal property: every yielded key is a string for which the
double-underscore test of `is_property` is `false`, so bookkeeping keys such
as `__line__`, `__ansible_module__` and `__ansible_arguments__` are never
surfaced. -/
theorem c6_walker_never_yields_property_keys (d : PyEntries)
    (l : List (PyVal × PyVal)) (h : recursive_items d = .ok l) :
    ∀ p ∈ l, is_property p.1 = .ok false :=
  recursive_items_keys_ok d l h

/-- Witness for C6 on the walked document `exWalk`. -/
theorem c6_witness : is_property (PyVal.str "a") = .ok false :=
  c6_walker_never_yields_property_keys exWalk exWalkItems rfl
    (PyVal.str "a", PyVal.dict exWalkInner) (by decide)

/-- C7: the walk is depth-first pre-order with the parent pair emitted
immediately before the pairs of its nested mapping value, which in turn come
before the pairs of the remaining entries; on
`\x7ba: \x7b__line__: 4, b: \x7bc: 1\x7d\x7d\x7d` it yields exactly
`(a, \x7b...\x7d), (b, \x7b...\x7d), (c, 1)`. -/
theorem c7_walker_preorder :
    (∀ (s : String) (v : PyVal) (sub rest : PyEntries)
        (lsub lrest : List (PyVal × PyVal)),
        (strStartsWith s "__" && strEndsWith s "__") = false →
        v = PyVal.dict sub →
        recursive_items sub = .ok lsub →
        recursive_items rest = .ok lrest →
        recursive_items (.cons (.str s) v rest) =
          .ok ((PyVal.str s, v) :: (lsub ++ lrest)))
  ∧ recursive_items exWalk = .ok exWalkItems := by
  constructor
  · intro s v sub rest lsub lrest hprop hv hsub hrest
    subst hv
    unfold recursive_items
    simp [is_property, hprop, value_items, hsub, hrest]
  · rfl

/-- Witness for C7: instantiating the pre-order equation on `exWalk`. -/
theorem c7_witness :
    recursive_items exWalk =
      .ok ((PyVal.str "a", PyVal.dict exWalkInner) ::
        ([(PyVal.str "b", PyVal.dict exWalkBB), (PyVal.str "c", PyVal.int 1)] ++ [])) :=
  c7_walker_preorder.1 "a" (PyVal.dict exWalkInner) exWalkInner .nil
    [(PyVal.str "b", PyVal.dict exWalkBB), (PyVal.str "c", PyVal.int 1)] []
    (by decide) rfl rfl rfl

/-- C9: on a mapping with a non-string key (the boolean `True`) the walker
raises `AttributeError` instead of yielding or skipping the pair, because
`is_property` applies string operations to the key unconditionally; hence the
naming-rule matchers are not total over such mappings, even though
`is_invalid_variable_name` itself returns `false` on non-strings. -/
theorem c9_walker_not_total_on_nonstring_keys :
    recursive_items (.cons (.bool true) (.bool false) .nil) = .error .attributeError
  ∧ is_invalid_variable_name (.bool true) = false
  ∧ VariableNamingRule.matchtask
      { vars := some (.dict (.cons (.bool true) (.bool false) .nil)) } =
      .error .attributeError :=
  ⟨rfl, rfl, rfl⟩

/-- C10: a key that starts and ends with the double-underscore marker prunes
its entire subtree: walking a mapping that begins with such an entry equals
walking the remaining entries, whatever the value under the internal key —
no pair nested below it is ever yielded. -/
theorem c10_property_key_prunes_subtree (s : String) (v : PyVal)
    (rest : PyEntries)
    (h : (strStartsWith s "__" && strEndsWith s "__") = true) :
    recursive_items (.cons (.str s) v rest) = recursive_items rest := by
  simp only [recursive_items, is_property, h]

/-- Witness for C10: an internal key holding a nested mapping is dropped
together with its whole subtree. -/
theorem c10_witness :
    (strStartsWith "__meta__" "__" && strEndsWith "__meta__" "__") = true
  ∧ recursive_items (.cons (.str "__meta__")
      (.dict (.cons (.str "secret") (.int 1) .nil))
      (.cons (.str "a") (.int 2) .nil)) =
    recursive_items (.cons (.str "a") (.int 2) .nil) :=
  ⟨by decide, c10_property_key_prunes_subtree "__meta__" _ _ (by decide)⟩

/-- C1 counterexample: on a `"vars"`-kind file `\x7bvalid_name: 1, 2bad: 2\x7d`
the document-level matcher emits its finding for `valid_name` — the key on
which `is_invalid_variable_name` is `true` — and no finding for `2bad`, on
which the validator is `false`: the call site does not negate the validator,
contrary to the claim. -/
theorem c1_counterexample :
    VariableNamingRule.matchyaml "vars" exVarsFile [] =
      .ok [{ message := VariableNamingRule.fileMsg "valid_name" }]
  ∧ is_invalid_variable_name (.str "valid_name") = true
  ∧ is_invalid_variable_name (.str "2bad") = false
  ∧ VariableNamingRule.fileMsg "valid_name" ≠ VariableNamingRule.fileMsg "2bad" :=
  ⟨rfl, rfl, rfl, by decide⟩

/-- C1 (amended): for every document of kind `"vars"` whose key walk
succeeds, `matchyaml` emits, in walk order, exactly one finding with message
"File defines variable '<key>' that violates variable naming standards" for
each walked pair whose key has `is_invalid_variable_name(key) = true`, and
none for the pairs on which the validator is `false` (the call site uses the
validator's result directly, without negation). -/
theorem c1_matchyaml_flags_validator_true_keys (metaData : PyEntries)
    (superResults : List Finding) (pairs : List (PyVal × PyVal))
    (h : recursive_items metaData = .ok pairs) :
    VariableNamingRule.matchyaml "vars" metaData superResults =
      .ok ((pairs.filter (fun p => is_invalid_variable_name p.1)).map
            (fun p => { message := VariableNamingRule.fileMsg (pyStrVal p.1) })) := by
  simp [VariableNamingRule.matchyaml, h, VariableNamingRule.yamlLoop_eq]

/-- Witness for the amended C1 on the file `\x7bgood_wit: 1\x7d`. -/
theorem c1_witness :
    VariableNamingRule.matchyaml "vars" exVarsFileW [] =
      .ok [{ message := VariableNamingRule.fileMsg "good_wit" }] := by
  have h := c1_matchyaml_flags_validator_true_keys exVarsFileW []
    [(PyVal.str "good_wit", PyVal.int 1)] rfl
  simpa using h

/-- C3: on the parsed `FAIL_PLAY` fixture — a one-play document whose play
has `vars: \x7btrue: false\x7d`, the YAML key `true` being the boolean
`True` — `matchplay` raises `AttributeError` inside `is_property` while
walking the `vars` mapping and emits no finding, although the rule's own
test expects exactly one result from this fixture. -/
theorem c3_fail_play_raises :
    VariableNamingRule.matchplay failPlayData = .error .attributeError := rfl

/-- C8: a play mapping with no `vars` key produces the empty finding list;
and when the play has a `vars` mapping that walks successfully and carries
its `__line__` marker (the data-model invariant for parsed mappings), the
line lookup never fails and every emitted finding is stamped with exactly
that marker's value. -/
theorem c8_matchplay_line_provenance (data ve : PyEntries)
    (pairs : List (PyVal × PyVal)) (line : PyVal) :
    (pyGet data (.str "vars") = Option.none →
      VariableNamingRule.matchplay data = .ok [])
  ∧ (pyGet data (.str "vars") = some (PyVal.dict ve) →
      recursive_items ve = .ok pairs →
      pyGet ve (.str "__line__") = some line →
      VariableNamingRule.matchplay data =
        .ok ((pairs.filter (fun p => is_invalid_variable_name p.1)).map
          (fun p => { message := VariableNamingRule.playMsg (pyStrVal p.1),
                      linenumber := some line }))) := by
  constructor
  · intro h
    simp [VariableNamingRule.matchplay, h]
    rfl
  · intro h1 h2 h3
    simp only [VariableNamingRule.matchplay, h1, Option.getD_some, h2]
    exact VariableNamingRule.playLoop_eq ve line h3 pairs

/-- Witness for C8 on the play `exPlay`: one finding, stamped with the
`__line__` value 5 of the `vars` block. -/
theorem c8_witness :
    VariableNamingRule.matchplay exPlay =
      .ok [{ message := VariableNamingRule.playMsg "good_var",
             linenumber := some (PyVal.int 5) }] := by
  have h := (c8_matchplay_line_provenance exPlay exPlayVars
    [(PyVal.str "good_var", PyVal.int 1)] (PyVal.int 5)).2 rfl rfl rfl
  simpa using h

/-- C5: the task-level matcher of the naming rule returns `False` or a
single message string (its result type here is `Option String`, never a
list) and checks in fixed short-circuit order — `vars` block, then
`set_fact` argument keys, then `register` — so a task whose `vars` walk
flags a key yields the `vars` message whatever the action and register
hold, and the three checks produce pairwise distinct message texts. -/
theorem c5_matchtask_shortcircuit_order (task : VariableNamingRule.VnTask)
    (ve : PyEntries) (pairs : List (PyVal × PyVal))
    (hv : task.vars = some (PyVal.dict ve))
    (hw : recursive_items ve = .ok pairs) :
    (pairs.any (fun p => is_invalid_variable_name p.1) = true →
      VariableNamingRule.matchtask task = .ok (some VariableNamingRule.taskVarsMsg))
  ∧ (∀ apairs : List (PyVal × PyVal),
      pairs.any (fun p => is_invalid_variable_name p.1) = false →
      pyIndex task.action (.str "__ansible_module__") = .ok (PyVal.str "set_fact") →
      recursive_items task.action = .ok apairs →
      apairs.any (fun p => is_invalid_variable_name p.1) = true →
      VariableNamingRule.matchtask task = .ok (some VariableNamingRule.taskSetFactMsg))
  ∧ (∀ m : PyVal,
      pairs.any (fun p => is_invalid_variable_name p.1) = false →
      pyIndex task.action (.str "__ansible_module__") = .ok m →
      m ≠ PyVal.str "set_fact" →
      pyTruthy task.register = true →
      is_invalid_variable_name task.register = true →
      VariableNamingRule.matchtask task = .ok (some VariableNamingRule.taskRegisterMsg))
  ∧ VariableNamingRule.taskVarsMsg ≠ VariableNamingRule.taskSetFactMsg
  ∧ VariableNamingRule.taskVarsMsg ≠ VariableNamingRule.taskRegisterMsg
  ∧ VariableNamingRule.taskSetFactMsg ≠ VariableNamingRule.taskRegisterMsg := by
  refine ⟨?_, ?_, ?_, by decide, by decide, by decide⟩
  · intro hhit
    simp [VariableNamingRule.matchtask, hv, hw, hhit]
  · intro apairs hmiss hm ha hahit
    simp [VariableNamingRule.matchtask, hv, hw, hmiss, hm, ha, hahit]
  · intro m hmiss hm hne hreg hinv
    simp [VariableNamingRule.matchtask, hv, hw, hmiss, hm, hne, hreg, hinv]

/-- Witness for C5: a task whose `vars` block and `register` target are both
flagged reports only the `vars`-section message. -/
theorem c5_witness :
    VariableNamingRule.matchtask exVnTask =
      .ok (some VariableNamingRule.taskVarsMsg) :=
  (c5_matchtask_shortcircuit_order exVnTask
    (.cons (.str "good_name") (.int 1) (.cons (.str "__line__") (.int 7) .nil))
    [(PyVal.str "good_name", PyVal.int 1)] rfl rfl).1 rfl

/-- C4: the shell rule's task matcher returns `false` whenever the resolved
module is not `shell`; on a `shell` task it returns `true` exactly when the
template-normalized command text — the explicit `cmd` field when present,
otherwise the arguments joined with single spaces — contains none of the
characters `&|<>;$`, newline, `*[]`, the two braces, `?` and the
backquote. -/
theorem c4_shell_matchtask_characterization
    (task : UseCommandInsteadOfShellRule.ShellTask) :
    (task.ansibleModule ≠ "shell" →
      UseCommandInsteadOfShellRule.matchtask task = false)
  ∧ (task.ansibleModule = "shell" →
      (UseCommandInsteadOfShellRule.matchtask task = true ↔
        ∀ ch ∈ UseCommandInsteadOfShellRule.shellMetachars,
          (match task.cmd with
           | some c => unjinja c
           | Option.none => unjinja (joinSpace task.ansibleArguments)).toList.contains ch
            = false)) := by
  constructor
  · intro h
    simp [UseCommandInsteadOfShellRule.matchtask, h]
  · intro h
    simp only [UseCommandInsteadOfShellRule.matchtask, h, if_pos,
      Bool.not_eq_true', List.any_eq_false, Bool.not_eq_true]

/-- Witness for C4: a shell task with `cmd: "echo hello"` is flagged. -/
theorem c4_witness :
    UseCommandInsteadOfShellRule.matchtask exShellTaskEcho = true :=
  ((c4_shell_matchtask_characterization exShellTaskEcho).2 rfl).mpr (by decide)
